import Mathlib

/-!
Verification development for the CineLibre movie/book sync pipeline
(`api/sync_engine.py`, `api/main.py`).

The Python source is shallowly embedded below:
* JSON values returned by the Hugging Face feature-extraction endpoint are
  modelled by `JVal` (numbers as rationals, arrays, strings).
* Python truthiness tests (`if not x`) on optional strings and on JSON
  values are modelled by `falsyO` and `jfalsy`.
* Every outbound network interaction (embedding backend, TMDB page fetch,
  Supabase upsert) is modelled by an explicit oracle parameter, so each
  code path of the source is a total Lean function of its inputs and of
  the oracles' answers.
* The two Supabase tables are modelled as functions `key → Option payload`,
  which is exactly the observable state of a table whose writes are all
  `upsert ... on_conflict = key` (at most one row per key, conflict
  replaces the row).
-/

namespace CineLibre

/-- JSON-ish values as returned by the embedding backend (`response.json()`):
numbers (modelled as rationals), arrays, and strings. -/
inductive JVal where
  | num (q : ℚ)
  | arr (l : List JVal)
  | str (s : String)

/-- Python truthiness of an optional string: `None` and `""` are falsy.
Models `not m.get('field')` where the field is absent, null, or empty. -/
def falsyO : Option String → Bool
  | none => true
  | some s => s.isEmpty

/-- Python truthiness of a decoded JSON value: `0`, `[]` and `""` are falsy.
Models `if not embedding:` in `run_sync`. -/
def jfalsy : JVal → Bool
  | .num q => q = 0
  | .arr l => l.isEmpty
  | .str s => s.isEmpty

/-- Body of the `while len(vector) > 0 and isinstance(vector[0], list)`
loop of `get_embedding` (sync_engine.py lines 46-47), phrased as structural
recursion on the head of the current list: `loopOn h t` is the loop run on
the vector `h :: t`.  If the head is a list, the loop replaces the vector by
that head (discarding the siblings) and re-tests; it stops as soon as the
vector is empty or its head is not a list. -/
def loopOn : JVal → List JVal → List JVal
  | .arr [], _ => []
  | .arr (h :: t), _ => loopOn h t
  | v, rest => v :: rest

/-- The flattening `while` loop of `get_embedding` on an arbitrary vector:
an empty vector fails the loop condition at once and is returned as is;
otherwise the loop runs on head and tail. -/
def unwrapLoop : List JVal → List JVal
  | [] => []
  | h :: t => loopOn h t

/-- The 200-response body processing of `get_embedding` (lines 43-49): if the
decoded JSON is a list, run the flattening loop on it; any non-list value is
returned unchanged. -/
def flattenBody : JVal → JVal
  | .arr l => .arr (unwrapLoop l)
  | v => v

/-- One response of the Hugging Face inference endpoint, as discriminated by
`get_embedding`: HTTP 200 with a JSON body, HTTP 503 (model warming up), any
other HTTP status (hard error), or a raised request exception. -/
inductive HFResponse where
  | ok (body : JVal)
  | warming
  | hardError (code : Nat)
  | netError

/-- Observable outcome of one `get_embedding` call: the returned value
(`none` models Python `None`), the number of HTTP requests issued, and the
sequence of `time.sleep` durations (in seconds) performed, in order. -/
structure EmbedResult where
  out : Option JVal
  calls : Nat
  waits : List Nat

/-- The `for i in range(5)` retry loop of `get_embedding` (lines 33-61),
with the attempt counter `i` and the number of remaining iterations made
explicit.  A 200 response returns the flattened body; a 503 sleeps
`(i + 1) * 5` seconds and moves to the next attempt; any other status breaks
out of the loop (falling through to `return None`); a request exception
sleeps 2 seconds and moves to the next attempt.  When the iterations are
exhausted the function returns `None`. -/
def embedAux (oracle : Nat → HFResponse) : Nat → Nat → EmbedResult
  | _, 0 => ⟨none, 0, []⟩
  | i, fuel + 1 =>
    match oracle i with
    | .ok body => ⟨some (flattenBody body), 1, []⟩
    | .warming =>
      let r := embedAux oracle (i + 1) fuel
      ⟨r.out, r.calls + 1, (i + 1) * 5 :: r.waits⟩
    | .hardError _ => ⟨none, 1, []⟩
    | .netError =>
      let r := embedAux oracle (i + 1) fuel
      ⟨r.out, r.calls + 1, 2 :: r.waits⟩

/-- `get_embedding` (sync_engine.py lines 20-61).  `hfToken` is the `HF_TOKEN`
environment variable (`none` = unset); if it is falsy the function logs an
error and returns `None` immediately, without issuing any request.  Otherwise
it runs the five-attempt retry loop against the backend oracle. -/
def getEmbedding (hfToken : Option String) (oracle : Nat → HFResponse) : EmbedResult :=
  if falsyO hfToken then ⟨none, 0, []⟩ else embedAux oracle 0 5

/-- The raw `origin_country` field of a TMDB discover item: absent, a plain
string, or a list of strings (`m.get('origin_country')`). -/
inductive OCField where
  | missing
  | str (s : String)
  | list (l : List String)
deriving DecidableEq

/-- A raw movie item from the TMDB discover endpoint, with exactly the fields
`run_sync` reads.  `id` is always present on TMDB items; the remaining fields
are optional (`none` models both an absent key and a JSON null). -/
structure MovieRaw where
  id : Nat
  title : Option String
  overview : Option String
  release_date : Option String
  poster_path : Option String
  original_language : Option String
  origin_country : OCField
deriving DecidableEq

/-- The row upserted into the `movies` table (sync_engine.py lines 161-170). -/
structure MoviePayload where
  tmdb_id : Nat
  title : String
  overview : String
  release_date : Option String
  poster_url : Option String
  language : Option String
  origin_country : Option (List String)
  embedding : JVal

/-- `[val] if isinstance(val, str) else val` on the raw `origin_country`
field (line 168). -/
def ocNormalize : OCField → Option (List String)
  | .missing => none
  | .str s => some [s]
  | .list l => some l

/-- The `volumeInfo` object of a Google Books volume, with exactly the fields
`run_sync` reads. -/
structure VolumeInfo where
  title : Option String
  description : Option String
  authors : Option (List String)
  thumbnail : Option String
  categories : Option (List String)
deriving DecidableEq

/-- A raw Google Books volume: its `id` (always present) and its optional
`volumeInfo` object (`b.get('volumeInfo', {})`). -/
structure BookRaw where
  id : String
  volumeInfo : Option VolumeInfo
deriving DecidableEq

/-- The row upserted into the `books` table (sync_engine.py lines 200-208). -/
structure BookPayload where
  google_id : String
  title : Option String
  authors : List String
  description : String
  thumbnail_url : Option String
  categories : List String
  embedding : JVal

/-- Error log lines emitted by `run_sync`, carrying exactly the data that is
interpolated into each message.  `movieDbError` is
`f"Database error saving movie {m.get('title')}: {e}"` (line 178);
`bookDbError` is `f"Database error saving book: {e}"` (line 214) — note it
carries no identifier of the failing book; `supabaseNotInit` is
`"Supabase not initialized. Check your credentials."` (line 141). -/
inductive LogEntry where
  | movieDbError (title : Option String) (err : String)
  | bookDbError (err : String)
  | supabaseNotInit
deriving DecidableEq

/-- Point update of a keyed table: the row at key `k` is replaced by `v`,
all other rows are unchanged.  This is the observable effect of
`upsert(payload, on_conflict=key)` on a table with a uniqueness constraint on
the key: conflict replaces the row (last write wins), otherwise the row is
inserted; either way there is at most one row per key. -/
def updateFn {K V : Type} [DecidableEq K] (s : K → Option V) (k : K) (v : V) :
    K → Option V :=
  fun j => if j = k then some v else s j

/-- The mutable state threaded through one `run_sync` invocation: the two
Supabase tables (keyed by `tmdb_id` / `google_id`), the `synced_movies` and
`synced_books` counters, the number of `get_embedding` invocations made, and
the error log. -/
structure SyncState where
  movies : Nat → Option MoviePayload
  books : String → Option BookPayload
  syncedMovies : Nat
  syncedBooks : Nat
  embedCalls : Nat
  log : List LogEntry

/-- Empty store, zero counters, empty log. -/
def emptyState : SyncState :=
  ⟨fun _ => none, fun _ => none, 0, 0, 0, []⟩

/-- `f"{m['title']}. {m.get('overview', '')}"[:2000]` (line 155). -/
def movieText (m : MovieRaw) : String :=
  ((m.title.getD "") ++ ". " ++ (m.overview.getD "")).take 2000

/-- The movie payload built at lines 161-170. -/
def mkMoviePayload (m : MovieRaw) (emb : JVal) : MoviePayload :=
  { tmdb_id := m.id
    title := m.title.getD ""
    overview := m.overview.getD ""
    release_date :=
      match m.release_date with
      | some s => if s.isEmpty then none else some s
      | none => none
    poster_url :=
      match m.poster_path with
      | some p => if p.isEmpty then none else some ("https://image.tmdb.org/t/p/w500" ++ p)
      | none => none
    language := m.original_language
    origin_country := ocNormalize m.origin_country
    embedding := emb }

/-- The per-movie control flow of the loop body at lines 149-160, up to the
upsert: `none` means the item was dropped by the required-field filter at
line 151 (no embedding call is made); `some none` means `get_embedding` was
called but its result was falsy (`if not embedding: continue`, lines 158-159);
`some (some (k, v))` means the item passed both guards and `v` is the payload
to upsert under key `k = tmdb_id`. -/
def movieAttempt (embed : String → Option JVal) (m : MovieRaw) :
    Option (Option (Nat × MoviePayload)) :=
  if falsyO m.overview || falsyO m.title then none
  else some (match embed (movieText m) with
    | none => none
    | some emb => if jfalsy emb then none else some (m.id, mkMoviePayload m emb))

/-- One iteration of the movie loop of `run_sync` (lines 149-178).
`persistM k` is the Supabase upsert oracle for the `movies` table: `none`
means the `.execute()` succeeded, `some err` means it raised an exception
with message `err`, which the `except` block catches and logs, leaving the
table and the counter unchanged. -/
def processMovie (embed : String → Option JVal) (persistM : Nat → Option String)
    (st : SyncState) (m : MovieRaw) : SyncState :=
  match movieAttempt embed m with
  | none => st
  | some none => { st with embedCalls := st.embedCalls + 1 }
  | some (some (k, v)) =>
    match persistM k with
    | none =>
      { st with embedCalls := st.embedCalls + 1
                movies := updateFn st.movies k v
                syncedMovies := st.syncedMovies + 1 }
    | some err =>
      { st with embedCalls := st.embedCalls + 1
                log := st.log ++ [.movieDbError m.title err] }

/-- The `(tmdb_id, payload)` pair a movie item contributes when its persist
succeeds, if any. -/
def moviePair (embed : String → Option JVal) (m : MovieRaw) :
    Option (Nat × MoviePayload) :=
  match movieAttempt embed m with
  | some (some p) => some p
  | _ => none

/-- `vol = b.get('volumeInfo', {})` (line 189). -/
def volOf (b : BookRaw) : VolumeInfo :=
  b.volumeInfo.getD ⟨none, none, none, none, none⟩

/-- `description = vol.get('description', '')` (line 190). -/
def bookDescription (b : BookRaw) : String :=
  (volOf b).description.getD ""

/-- `f"{vol.get('title')}. {description}"[:2000]` (line 194). -/
def bookText (b : BookRaw) : String :=
  (((volOf b).title.getD "") ++ ". " ++ bookDescription b).take 2000

/-- The book payload built at lines 200-208. -/
def mkBookPayload (b : BookRaw) (emb : JVal) : BookPayload :=
  { google_id := b.id
    title := (volOf b).title
    authors := (volOf b).authors.getD []
    description := bookDescription b
    thumbnail_url := (volOf b).thumbnail
    categories := (volOf b).categories.getD []
    embedding := emb }

/-- The per-book control flow of the loop body at lines 187-198, mirroring
`movieAttempt`: the filter at line 191 is
`if not description or not vol.get('title'): continue`. -/
def bookAttempt (embed : String → Option JVal) (b : BookRaw) :
    Option (Option (String × BookPayload)) :=
  if (bookDescription b).isEmpty || falsyO (volOf b).title then none
  else some (match embed (bookText b) with
    | none => none
    | some emb => if jfalsy emb then none else some (b.id, mkBookPayload b emb))

/-- One iteration of the book loop of `run_sync` (lines 187-214), with the
books-table upsert oracle `persistB`. -/
def processBook (embed : String → Option JVal) (persistB : String → Option String)
    (st : SyncState) (b : BookRaw) : SyncState :=
  match bookAttempt embed b with
  | none => st
  | some none => { st with embedCalls := st.embedCalls + 1 }
  | some (some (k, v)) =>
    match persistB k with
    | none =>
      { st with embedCalls := st.embedCalls + 1
                books := updateFn st.books k v
                syncedBooks := st.syncedBooks + 1 }
    | some err =>
      { st with embedCalls := st.embedCalls + 1
                log := st.log ++ [.bookDbError err] }

/-- The `(google_id, payload)` pair a book item contributes, if any. -/
def bookPair (embed : String → Option JVal) (b : BookRaw) :
    Option (String × BookPayload) :=
  match bookAttempt embed b with
  | some (some p) => some p
  | _ => none

/-- The movie loop of `run_sync` over the fetched candidate list. -/
def runMovies (embed : String → Option JVal) (persistM : Nat → Option String)
    (st : SyncState) (ms : List MovieRaw) : SyncState :=
  ms.foldl (processMovie embed persistM) st

/-- The book loop of `run_sync` over the fetched candidate list. -/
def runBooks (embed : String → Option JVal) (persistB : String → Option String)
    (st : SyncState) (bs : List BookRaw) : SyncState :=
  bs.foldl (processBook embed persistB) st

/-- `run_sync` (lines 139-217), parameterised by the embedding function, the
two persistence oracles, and the two fetched candidate lists (the claims all
quantify over a fixed fetch result).  `supabaseOk` is whether the module-level
`supabase` client was initialised (line 18: both `SUPABASE_URL` and
`SUPABASE_KEY` truthy); if it was not, the function logs an error and returns
before doing any work (lines 140-142). -/
def runSync (embed : String → Option JVal) (persistM : Nat → Option String)
    (persistB : String → Option String) (ms : List MovieRaw) (bs : List BookRaw)
    (supabaseOk : Bool) (st : SyncState) : SyncState :=
  if supabaseOk then
    runBooks embed persistB (runMovies embed persistM st ms) bs
  else
    { st with log := st.log ++ [.supabaseNotInit] }

/-- The four environment secrets read at sync_engine.py lines 12-15
(`none` = unset; an empty string is also falsy in every check the script
performs). -/
structure Config where
  tmdb : Option String
  supaUrl : Option String
  supaKey : Option String
  hfToken : Option String

/-- The missing-secret scan of the `__main__` block (lines 220-224), in the
order the script performs it. -/
def missingSecrets (c : Config) : List String :=
  (if falsyO c.tmdb then ["TMDB_API_KEY"] else []) ++
  (if falsyO c.supaUrl then ["SUPABASE_URL"] else []) ++
  (if falsyO c.supaKey then ["SUPABASE_KEY"] else []) ++
  (if falsyO c.hfToken then ["HF_TOKEN"] else [])

/-- Line 18: the Supabase client is created iff both store credentials are
truthy. -/
def supabaseInit (c : Config) : Bool :=
  !falsyO c.supaUrl && !falsyO c.supaKey

/-- The embedding function `run_sync` actually uses: each text is embedded by
one `get_embedding` call with the configured `HF_TOKEN`, against a per-text
backend oracle. -/
def embedOf (c : Config) (oracle : String → Nat → HFResponse) :
    String → Option JVal :=
  fun t => (getEmbedding c.hfToken (oracle t)).out

/-- Outcome of the `__main__` block: either the run was refused with the
`FAILED TO START: Missing secrets in environment: ...` diagnostic naming the
missing variables (line 227), or `run_sync()` ran to completion with the
given final state. -/
inductive MainOutcome where
  | aborted (missing : List String)
  | ran (final : SyncState)

/-- The `__main__` block of sync_engine.py (lines 219-229): if any of the four
secrets is falsy, log the diagnostic and do not call `run_sync`; otherwise
call `run_sync`. -/
def mainEntry (c : Config) (oracle : String → Nat → HFResponse)
    (persistM : Nat → Option String) (persistB : String → Option String)
    (ms : List MovieRaw) (bs : List BookRaw) : MainOutcome :=
  if (missingSecrets c).isEmpty then
    .ran (runSync (embedOf c oracle) persistM persistB ms bs (supabaseInit c) emptyState)
  else
    .aborted (missingSecrets c)

/-- One TMDB discover response as discriminated by the page loop of
`get_indian_movies` (lines 76-103): HTTP 429 (rate limited), any response
that makes `raise_for_status()` throw or a request exception (both land in
the same `except` handler), or a successful page with its `results` list. -/
inductive FetchResult where
  | rateLimited
  | fetchError
  | ok (results : List MovieRaw)
deriving DecidableEq

/-- Observable outcome of crawling one language partition: the accumulated
items, the page numbers requested in order, and the `time.sleep` durations
performed in order. -/
structure CrawlOut where
  items : List MovieRaw
  trace : List Nat
  waits : List Nat
deriving DecidableEq

/-- The `for page in range(1, pages_per_lang + 1)` loop of
`get_indian_movies` for one language (lines 76-103), with the current page
number and the number of remaining loop iterations explicit.  A 429 response
sleeps 2 seconds and `continue`s — which moves the `for` loop to the next
page; a fetch error is logged and also `continue`s to the next page; an empty
`results` list breaks; otherwise the results are appended and the loop breaks
if the accumulator now exceeds `target + 500` (line 98), else proceeds to the
next page. -/
def crawlPagesAux (oracle : Nat → FetchResult) (targetPlus : Nat) :
    Nat → Nat → List MovieRaw → List Nat → List Nat → CrawlOut
  | _, 0, acc, trace, waits => ⟨acc, trace, waits⟩
  | p, remaining + 1, acc, trace, waits =>
    match oracle p with
    | .rateLimited =>
      crawlPagesAux oracle targetPlus (p + 1) remaining acc (trace ++ [p]) (waits ++ [2])
    | .fetchError =>
      crawlPagesAux oracle targetPlus (p + 1) remaining acc (trace ++ [p]) waits
    | .ok results =>
      if results.isEmpty then ⟨acc, trace ++ [p], waits⟩
      else
        let acc := acc ++ results
        if targetPlus < acc.length then ⟨acc, trace ++ [p], waits⟩
        else crawlPagesAux oracle targetPlus (p + 1) remaining acc (trace ++ [p]) waits

/-- Crawl of one language partition: pages 1 through `cap`
(`cap = pages_per_lang`), starting from an empty accumulator.  `oracle p` is
the TMDB response for page `p` of this partition. -/
def crawlLang (oracle : Nat → FetchResult) (target cap : Nat) : CrawlOut :=
  crawlPagesAux oracle (target + 500) 1 cap [] [] []

/-- A row returned by the `match_movies` / `match_books` nearest-neighbor
RPC: its integer primary key and its similarity score. -/
structure NbrRow where
  id : Nat
  similarity : ℚ
deriving DecidableEq

/-- `get_content_recommendations` (main.py lines 107-131).  `fetchEmb` is the
`select("embedding").eq("id", item_id)` lookup (`none` = item not found, the
404 path); `rpc emb k` is the nearest-neighbor RPC called with
`match_count = k` — the code passes `limit + 1`, then filters out every row
whose stringified id equals `item_id`, and returns the first `limit`
survivors. -/
def getContentRecommendations (fetchEmb : String → Option JVal)
    (rpc : JVal → Nat → List NbrRow) (item_id : String) (limit : Nat) :
    Option (List NbrRow) :=
  match fetchEmb item_id with
  | none => none
  | some emb =>
    let response := rpc emb (limit + 1)
    some ((response.filter (fun r => toString r.id ≠ item_id)).take limit)

/-- Folding a list of keyed payloads into a table, one `updateFn` per pair:
the cumulative effect of a sequence of upserts. -/
def applyPairs {K V : Type} [DecidableEq K] (s : K → Option V)
    (ps : List (K × V)) : K → Option V :=
  ps.foldl (fun st p => updateFn st p.1 p.2) s

/-- The value a sequence of upserts leaves at key `j`, folded from a starting
value: each pair whose key is `j` overwrites the accumulator. -/
def resolveWith {K V : Type} [DecidableEq K] (a : Option V)
    (ps : List (K × V)) (j : K) : Option V :=
  ps.foldl (fun acc p => if j = p.1 then some p.2 else acc) a

/-- Length of an embedding value: the length of the array, 0 for non-arrays. -/
def embLen : JVal → Nat
  | .arr l => l.length
  | _ => 0

/-- `n`-fold single-element wrapping of a list of JSON values:
`nestWrap 2 l` is `[[l]]` around the elements of `l`. -/
def nestWrap : Nat → List JVal → List JVal
  | 0, l => l
  | n + 1, l => [.arr (nestWrap n l)]

/-- The observable output of a sync run that the claims compare: both tables,
both success counters, and the error log (`embedCalls` is bookkeeping of the
model, not an output of the script). -/
def obs (st : SyncState) :=
  (st.movies, st.books, st.syncedMovies, st.syncedBooks, st.log)

/-- A valid movie item: both required fields present and non-empty. -/
def mExValid : MovieRaw := ⟨7, some "A", some "B", none, none, none, .missing⟩

/-- A movie item with no title. -/
def mExNoTitle : MovieRaw := ⟨8, none, some "B", none, none, none, .missing⟩

/-- A second valid movie item, used as the content of a crawled page. -/
def mExPage : MovieRaw := ⟨9, some "C", some "D", none, none, none, .missing⟩

/-- A valid book item with google_id "A". -/
def bExA : BookRaw := ⟨"A", some ⟨some "T", some "D", none, none, none⟩⟩

/-- A valid book item with google_id "B" and the same volume info as `bExA`. -/
def bExB : BookRaw := ⟨"B", some ⟨some "T", some "D", none, none, none⟩⟩

/-- An embedding function that returns a fixed one-component vector. -/
def embedOne : String → Option JVal := fun _ => some (.arr [.num 1])

/-- A movies-table persist oracle that always succeeds. -/
def persistOkM : Nat → Option String := fun _ => none

/-- A books-table persist oracle that always succeeds. -/
def persistOkB : String → Option String := fun _ => none

/-- A movies-table persist oracle that always raises `db down`. -/
def persistFailM : Nat → Option String := fun _ => some "db down"

/-- A books-table persist oracle that always raises `db down`. -/
def persistFailB : String → Option String := fun _ => some "db down"

/-- A backend oracle answering every request with a 200 whose body is a
one-component vector. -/
def orcOk : String → Nat → HFResponse := fun _ _ => .ok (.arr [.num 1])

/-- A backend oracle answering every request with a 200 whose body is a
two-component vector (wrong length for a 384-dimension model). -/
def orcLenTwo : Nat → HFResponse := fun _ => .ok (.arr [.num 1, .num 2])

/-- Config with every secret set except `TMDB_API_KEY`. -/
def cfgNoTmdb : Config := ⟨none, some "u", some "k", some "h"⟩

/-- Config with all four secrets set. -/
def cfgAll : Config := ⟨some "t", some "u", some "k", some "h"⟩

/-- Config with every secret set except `HF_TOKEN`. -/
def cfgNoHF : Config := ⟨some "t", some "u", some "k", none⟩

/-- A TMDB page oracle: page 1 is rate limited, every other page succeeds
with one item. -/
def orc429Once : Nat → FetchResult :=
  fun p => if p = 1 then .rateLimited else .ok [mExPage]

/-- A TMDB page oracle that rate-limits every request. -/
def orc429All : Nat → FetchResult := fun _ => .rateLimited

/-- An embedding-column lookup that finds every id, with an empty vector. -/
def fetchEmbEx : String → Option JVal := fun _ => some (.arr [])

/-- A nearest-neighbor RPC returning rows with ids 5 and 9. -/
def rpcEx : JVal → Nat → List NbrRow := fun _ _ => [⟨5, 1⟩, ⟨9, 1⟩]

theorem unwrapLoop_arr (inner rest : List JVal) :
    unwrapLoop (.arr inner :: rest) = unwrapLoop inner := by
  cases inner <;> rfl

theorem unwrapLoop_map_num (v : List ℚ) :
    unwrapLoop (v.map .num) = v.map .num := by
  cases v <;> rfl

theorem unwrapLoop_nestWrap (n : Nat) (v : List ℚ) :
    unwrapLoop (nestWrap n (v.map .num)) = v.map .num := by
  induction n with
  | zero => exact unwrapLoop_map_num v
  | succ n ih => rw [nestWrap, unwrapLoop_arr, ih]

theorem processMovie_embed_none (pM : Nat → Option String) (st : SyncState)
    (m : MovieRaw) :
    processMovie (fun _ => none) pM st m
      = if falsyO m.overview || falsyO m.title then st
        else { st with embedCalls := st.embedCalls + 1 } := by
  by_cases hc : (falsyO m.overview || falsyO m.title) = true
  · simp [processMovie, movieAttempt, hc]
  · simp [processMovie, movieAttempt, hc]

theorem processBook_embed_none (pB : String → Option String) (st : SyncState)
    (b : BookRaw) :
    processBook (fun _ => none) pB st b
      = if (bookDescription b).isEmpty || falsyO (volOf b).title then st
        else { st with embedCalls := st.embedCalls + 1 } := by
  by_cases hc : ((bookDescription b).isEmpty || falsyO (volOf b).title) = true
  · simp [processBook, bookAttempt, hc]
  · simp [processBook, bookAttempt, hc]

/-- C5: on a successful backend response whose body is the triple-nested
single-element wrapping `[[[0.1, 0.2, 0.3]]]`, `get_embedding` returns the
flat list `[0.1, 0.2, 0.3]`; and in general the flattening loop unwraps any
`n`-fold single-element list nesting of a flat numeric vector back to that
vector. -/
theorem c5_nested_flattening (tok : String) (ht : tok.isEmpty = false)
    (oracle : Nat → HFResponse)
    (h0 : oracle 0 = .ok (.arr [.arr [.arr [.num (1/10), .num (2/10), .num (3/10)]]])) :
    (getEmbedding (some tok) oracle).out
      = some (.arr [.num (1/10), .num (2/10), .num (3/10)])
    ∧ ∀ (n : Nat) (v : List ℚ),
        flattenBody (.arr (nestWrap n (v.map .num))) = .arr (v.map .num) := by
  constructor
  · simp [getEmbedding, falsyO, ht, embedAux, h0, flattenBody, unwrapLoop, loopOn]
  · intro n v
    rw [flattenBody, unwrapLoop_nestWrap]

theorem c5_nested_flattening_witness :
    (getEmbedding (some "t")
        (fun _ => .ok (.arr [.arr [.arr [.num (1/10), .num (2/10), .num (3/10)]]]))).out
      = some (.arr [.num (1/10), .num (2/10), .num (3/10)]) :=
  (c5_nested_flattening "t" rfl _ rfl).1

/-- C4: against a backend that reports the warming-up status (HTTP 503) on
every attempt, `get_embedding` performs exactly its 5-attempt budget, sleeps
the increasing delays 5, 10, 15, 20, 25 seconds ((i+1) * 5 for attempt index
i), and returns `None`; the movie loop then skips the enclosing record —
tables, success counter and log are untouched — rather than aborting. -/
theorem c4_warming_exhausts_budget (tok : String) (ht : tok.isEmpty = false)
    (oracle : Nat → HFResponse) (h : ∀ i, i < 5 → oracle i = .warming) :
    getEmbedding (some tok) oracle = ⟨none, 5, [5, 10, 15, 20, 25]⟩
    ∧ ∀ (persistM : Nat → Option String) (st : SyncState) (m : MovieRaw),
        ((processMovie (fun _ => (getEmbedding (some tok) oracle).out) persistM st m).movies
            = st.movies)
        ∧ ((processMovie (fun _ => (getEmbedding (some tok) oracle).out) persistM st m).syncedMovies
            = st.syncedMovies)
        ∧ ((processMovie (fun _ => (getEmbedding (some tok) oracle).out) persistM st m).log
            = st.log) := by
  have h0 := h 0 (by omega)
  have h1 := h 1 (by omega)
  have h2 := h 2 (by omega)
  have h3 := h 3 (by omega)
  have h4 := h 4 (by omega)
  have hmain : getEmbedding (some tok) oracle = ⟨none, 5, [5, 10, 15, 20, 25]⟩ := by
    simp [getEmbedding, falsyO, ht, embedAux, h0, h1, h2, h3, h4]
  refine ⟨hmain, ?_⟩
  intro pM st m
  have hout : (getEmbedding (some tok) oracle).out = none := by rw [hmain]
  simp only [hout]
  rw [processMovie_embed_none]
  split <;> simp

theorem c4_warming_exhausts_budget_witness :
    getEmbedding (some "t") (fun _ => .warming) = ⟨none, 5, [5, 10, 15, 20, 25]⟩ :=
  (c4_warming_exhausts_budget "t" rfl _ (fun _ _ => rfl)).1

/-- C6: a raw item in either domain whose title or description/overview is
absent or empty is dropped by the normalization filter: the loop body leaves
the whole state unchanged — no canonical record is built, no embedding call
is made (the embedding-call counter is untouched), nothing is persisted and
nothing is logged. -/
theorem c6_missing_fields_dropped (embed : String → Option JVal)
    (pM : Nat → Option String) (pB : String → Option String)
    (st : SyncState) (m : MovieRaw) (b : BookRaw) :
    ((falsyO m.title || falsyO m.overview) = true → processMovie embed pM st m = st)
    ∧ (((bookDescription b).isEmpty || falsyO (volOf b).title) = true →
        processBook embed pB st b = st) := by
  constructor
  · intro hm
    have hm' : (falsyO m.overview || falsyO m.title) = true := by
      rw [Bool.or_comm]; exact hm
    simp [processMovie, movieAttempt, hm']
  · intro hb
    simp [processBook, bookAttempt, hb]

theorem c6_missing_fields_dropped_witness :
    processMovie embedOne persistOkM emptyState mExNoTitle = emptyState :=
  (c6_missing_fields_dropped embedOne persistOkM persistOkB emptyState
    mExNoTitle bExA).1 rfl

/-- C9: whatever rows the nearest-neighbor RPC returns for an item's own
embedding, the recommendation endpoint never returns a row whose id equals
the queried item's id — every returned row survives the self-exclusion
filter. -/
theorem c9_self_exclusion (fetchEmb : String → Option JVal)
    (rpc : JVal → Nat → List NbrRow) (item_id : String) (limit : Nat)
    (recs : List NbrRow)
    (h : getContentRecommendations fetchEmb rpc item_id limit = some recs) :
    ∀ r ∈ recs, toString r.id ≠ item_id := by
  intro r hr
  cases hemb : fetchEmb item_id with
  | none => simp [getContentRecommendations, hemb] at h
  | some emb =>
    simp only [getContentRecommendations, hemb, Option.some.injEq] at h
    subst h
    have hmem := List.take_subset _ _ hr
    have hfil := List.mem_filter.mp hmem
    simpa using hfil.2

theorem c9_self_exclusion_witness : toString (NbrRow.mk 9 1).id ≠ "5" :=
  c9_self_exclusion fetchEmbEx rpcEx "5" 10 [⟨9, 1⟩] rfl ⟨9, 1⟩ (List.Mem.head _)

theorem runMovies_embed_none (pM : Nat → Option String) (ms : List MovieRaw) :
    ∀ st : SyncState, obs (runMovies (fun _ => none) pM st ms) = obs st := by
  induction ms with
  | nil => intro st; rfl
  | cons m ms ih =>
    intro st
    rw [runMovies, List.foldl_cons, ← runMovies, ih, processMovie_embed_none]
    split <;> rfl

theorem runBooks_embed_none (pB : String → Option String) (bs : List BookRaw) :
    ∀ st : SyncState, obs (runBooks (fun _ => none) pB st bs) = obs st := by
  induction bs with
  | nil => intro st; rfl
  | cons b bs ih =>
    intro st
    rw [runBooks, List.foldl_cons, ← runBooks, ih, processBook_embed_none]
    split <;> rfl

/-- C10: when `HF_TOKEN` is unset, `get_embedding` returns `None` immediately
for every input text, making zero backend calls and performing zero sleeps;
consequently a whole `run_sync` invocation skips every candidate item and
finishes with both tables, both success counters and the log exactly as it
found them. -/
theorem c10_no_token_skips_all (c : Config) (hc : c.hfToken = none)
    (oracle : String → Nat → HFResponse) (pM : Nat → Option String)
    (pB : String → Option String) (ms : List MovieRaw) (bs : List BookRaw)
    (st : SyncState) :
    (∀ t, getEmbedding c.hfToken (oracle t) = ⟨none, 0, []⟩)
    ∧ obs (runSync (embedOf c oracle) pM pB ms bs true st) = obs st := by
  have hemb : embedOf c oracle = fun _ => none := by
    funext t
    simp [embedOf, hc, getEmbedding, falsyO]
  constructor
  · intro t; rw [hc]; rfl
  · simp only [runSync, if_true]
    rw [hemb, runBooks_embed_none, runMovies_embed_none]

theorem c10_no_token_skips_all_witness :
    obs (runSync (embedOf cfgNoHF orcOk) persistOkM persistOkB
          [mExValid] [bExA] true emptyState)
      = obs emptyState :=
  (c10_no_token_skips_all cfgNoHF rfl orcOk persistOkM persistOkB
    [mExValid] [bExA] emptyState).2

theorem movieAttempt_pair (embed : String → Option JVal) (m : MovieRaw)
    (k : Nat) (v : MoviePayload)
    (h : movieAttempt embed m = some (some (k, v))) :
    jfalsy v.embedding = false := by
  unfold movieAttempt at h
  split at h
  · exact Option.noConfusion h
  · rw [Option.some_inj] at h
    split at h
    · exact Option.noConfusion h
    · rename_i emb hemb
      split at h
      · exact Option.noConfusion h
      · rename_i hj
        rw [Option.some_inj] at h
        have hv : v = mkMoviePayload m emb := (congrArg Prod.snd h).symm
        rw [hv]
        show jfalsy emb = false
        simpa using hj

theorem bookAttempt_pair (embed : String → Option JVal) (b : BookRaw)
    (k : String) (v : BookPayload)
    (h : bookAttempt embed b = some (some (k, v))) :
    jfalsy v.embedding = false := by
  unfold bookAttempt at h
  split at h
  · exact Option.noConfusion h
  · rw [Option.some_inj] at h
    split at h
    · exact Option.noConfusion h
    · rename_i emb hemb
      split at h
      · exact Option.noConfusion h
      · rename_i hj
        rw [Option.some_inj] at h
        have hv : v = mkBookPayload b emb := (congrArg Prod.snd h).symm
        rw [hv]
        show jfalsy emb = false
        simpa using hj

/-- C1 (corrected): every record the sync loop persists has a non-null,
non-empty (truthy) embedding — the `if not embedding: continue` guard — and
this truthiness invariant of both tables is preserved by every loop
iteration.  The exact-length-384 part of the original claim is refuted by
`c1_counterexample`: the engine performs no dimension check. -/
theorem c1_persisted_embedding_truthy (embed : String → Option JVal)
    (pM : Nat → Option String) (pB : String → Option String) (st : SyncState)
    (m : MovieRaw) (b : BookRaw)
    (hm : ∀ k p, st.movies k = some p → jfalsy p.embedding = false)
    (hb : ∀ k p, st.books k = some p → jfalsy p.embedding = false) :
    (∀ k p, (processMovie embed pM st m).movies k = some p →
        jfalsy p.embedding = false)
    ∧ (∀ k p, (processBook embed pB st b).books k = some p →
        jfalsy p.embedding = false) := by
  constructor
  · intro k p hp
    cases ha : movieAttempt embed m with
    | none =>
      simp only [processMovie, ha] at hp
      exact hm k p hp
    | some o =>
      cases o with
      | none =>
        simp only [processMovie, ha] at hp
        exact hm k p hp
      | some kv =>
        obtain ⟨k0, v⟩ := kv
        cases hper : pM k0 with
        | none =>
          simp only [processMovie, ha, hper] at hp
          rw [updateFn] at hp
          by_cases hk : k = k0
          · rw [if_pos hk, Option.some_inj] at hp
            rw [← hp]
            exact movieAttempt_pair embed m k0 v ha
          · rw [if_neg hk] at hp
            exact hm k p hp
        | some err =>
          simp only [processMovie, ha, hper] at hp
          exact hm k p hp
  · intro k p hp
    cases ha : bookAttempt embed b with
    | none =>
      simp only [processBook, ha] at hp
      exact hb k p hp
    | some o =>
      cases o with
      | none =>
        simp only [processBook, ha] at hp
        exact hb k p hp
      | some kv =>
        obtain ⟨k0, v⟩ := kv
        cases hper : pB k0 with
        | none =>
          simp only [processBook, ha, hper] at hp
          rw [updateFn] at hp
          by_cases hk : k = k0
          · rw [if_pos hk, Option.some_inj] at hp
            rw [← hp]
            exact bookAttempt_pair embed b k0 v ha
          · rw [if_neg hk] at hp
            exact hb k p hp
        | some err =>
          simp only [processBook, ha, hper] at hp
          exact hb k p hp

theorem c1_persisted_embedding_truthy_witness :
    jfalsy (mkMoviePayload mExValid (.arr [.num 1])).embedding = false :=
  (c1_persisted_embedding_truthy embedOne persistOkM persistOkB emptyState
      mExValid bExA (fun _ _ h => Option.noConfusion h)
      (fun _ _ h => Option.noConfusion h)).1
    7 (mkMoviePayload mExValid (.arr [.num 1])) rfl

/-- C1 counterexample: against a backend that successfully returns a
two-component vector, `run_sync`'s movie loop persists the record with that
wrong-length embedding (2 components, not 384) — refuting the claim that a
record whose embedding has the wrong length is never persisted. -/
theorem c1_counterexample :
    (((processMovie (fun _ => (getEmbedding (some "h") orcLenTwo).out)
          persistOkM emptyState mExValid).movies 7).map
        (fun p => embLen p.embedding)) = some 2
    ∧ (2 : Nat) ≠ 384 := by
  exact ⟨rfl, by decide⟩

/-- C3 counterexample: the crawler does not retry a rate-limited page.  With
a source whose page 1 answers HTTP 429 and whose page 2 succeeds, the request
trace over a 2-page cap is `[1, 2]` — after the 429 the crawler moves on to
page 2 and never re-requests page 1, and page 1's items are lost.  Moreover,
with a 1-page cap and a source that always answers 429, the single page-cap
slot is consumed by the rate-limited response and the partition ends with no
items — the 429 does count against the page cap. -/
theorem c3_counterexample :
    (crawlLang orc429Once 2200 2 = ⟨[mExPage], [1, 2], [2]⟩
      ∧ orc429Once 1 = .rateLimited)
    ∧ crawlLang orc429All 2200 1 = ⟨[], [1], [2]⟩ :=
  ⟨⟨rfl, rfl⟩, rfl⟩

theorem crawlPagesAux_shape (oracle : Nat → FetchResult) (tp : Nat) :
    ∀ (rem p : Nat) (acc : List MovieRaw) (tr ws : List Nat),
      ∃ j ≤ rem,
        (crawlPagesAux oracle tp p rem acc tr ws).trace = tr ++ List.range' p j
        ∧ (crawlPagesAux oracle tp p rem acc tr ws).waits
            = ws ++ (List.range' p j).filterMap
                (fun q => if oracle q = .rateLimited then some 2 else none) := by
  intro rem
  induction rem with
  | zero =>
    intro p acc tr ws
    exact ⟨0, Nat.le_refl 0, by simp [crawlPagesAux], by simp [crawlPagesAux]⟩
  | succ rem ih =>
    intro p acc tr ws
    cases ho : oracle p with
    | rateLimited =>
      obtain ⟨j, hj, htr, hws⟩ := ih (p + 1) acc (tr ++ [p]) (ws ++ [2])
      refine ⟨j + 1, by omega, ?_, ?_⟩
      · simp only [crawlPagesAux, ho, htr, List.range'_succ]
        simp
      · simp only [crawlPagesAux, ho, hws, List.range'_succ, List.filterMap_cons, ho]
        simp
    | fetchError =>
      obtain ⟨j, hj, htr, hws⟩ := ih (p + 1) acc (tr ++ [p]) ws
      refine ⟨j + 1, by omega, ?_, ?_⟩
      · simp only [crawlPagesAux, ho, htr, List.range'_succ]
        simp
      · simp only [crawlPagesAux, ho, hws, List.range'_succ, List.filterMap_cons, ho]
        simp
    | ok results =>
      by_cases hres : results.isEmpty = true
      · refine ⟨1, by omega, ?_, ?_⟩
        · simp [crawlPagesAux, ho, hres, List.range'_one]
        · simp [crawlPagesAux, ho, hres, List.range'_one, List.filterMap_cons]
      · by_cases hlen : tp < acc.length + results.length
        · refine ⟨1, by omega, ?_, ?_⟩
          · simp [crawlPagesAux, ho, hres, hlen, List.range'_one]
          · simp [crawlPagesAux, ho, hres, hlen, List.range'_one, List.filterMap_cons]
        · obtain ⟨j, hj, htr, hws⟩ := ih (p + 1) (acc ++ results) (tr ++ [p]) ws
          have h1 : crawlPagesAux oracle tp p (rem + 1) acc tr ws
              = crawlPagesAux oracle tp (p + 1) rem (acc ++ results) (tr ++ [p]) ws := by
            simp [crawlPagesAux, ho, hres, hlen]
          refine ⟨j + 1, by omega, ?_, ?_⟩
          · rw [h1, htr, List.range'_succ]
            simp
          · rw [h1, hws, List.range'_succ, List.filterMap_cons]
            simp [ho]

/-- C3 (corrected): for every partition, pages are requested in strictly
increasing order `1, 2, ..., j` with `j` at most the page cap — a 429'd page
is requested exactly once (never retried) and still consumes a page-cap
slot — and each rate-limited page triggers exactly one fixed 2-second
cooldown sleep before the crawler advances to the next page. -/
theorem c3_rate_limited_page_skipped (oracle : Nat → FetchResult)
    (target cap : Nat) :
    ∃ j ≤ cap,
      (crawlLang oracle target cap).trace = List.range' 1 j
      ∧ (crawlLang oracle target cap).waits
          = (List.range' 1 j).filterMap
              (fun q => if oracle q = .rateLimited then some 2 else none) := by
  obtain ⟨j, hj, htr, hws⟩ := crawlPagesAux_shape oracle (target + 500) cap 1 [] [] []
  exact ⟨j, hj, by simpa using htr, by simpa using hws⟩

/-- C7 counterexample: a book persist failure is logged without any
identifier and without incrementing any counter — two different failing
books (ids "A" and "B") leave byte-for-byte identical observable states, so
the log cannot identify the failing record, and nothing is counted. -/
theorem c7_counterexample :
    bExA ≠ bExB
    ∧ processBook embedOne persistFailB emptyState bExA
        = processBook embedOne persistFailB emptyState bExB
    ∧ (processBook embedOne persistFailB emptyState bExA).syncedBooks = 0 :=
  ⟨by decide, rfl, rfl⟩

/-- C7 (corrected): a persist failure for one record is caught and logged —
for movies with the movie's title and the error, for books with only the
error — the tables and success counters are unchanged (the failure is not
counted anywhere), and the loop continues with the remaining records; the
run is never aborted by a per-item failure. -/
theorem c7_persist_failure_logged (embed : String → Option JVal)
    (pM : Nat → Option String) (pB : String → Option String) (st : SyncState)
    (m : MovieRaw) (b : BookRaw) (err : String) (xs ys : List MovieRaw) :
    (∀ k v, movieAttempt embed m = some (some (k, v)) → pM k = some err →
        processMovie embed pM st m
          = { st with embedCalls := st.embedCalls + 1
                      log := st.log ++ [.movieDbError m.title err] })
    ∧ (∀ k v, bookAttempt embed b = some (some (k, v)) → pB k = some err →
        processBook embed pB st b
          = { st with embedCalls := st.embedCalls + 1
                      log := st.log ++ [.bookDbError err] })
    ∧ runMovies embed pM st (xs ++ ys)
        = runMovies embed pM (runMovies embed pM st xs) ys := by
  refine ⟨?_, ?_, ?_⟩
  · intro k v hk hp
    simp [processMovie, hk, hp]
  · intro k v hk hp
    simp [processBook, hk, hp]
  · simp [runMovies, List.foldl_append]

theorem c7_persist_failure_logged_witness :
    processMovie embedOne persistFailM emptyState mExValid
      = { emptyState with embedCalls := 1
                          log := [.movieDbError (some "A") "db down"] } :=
  (c7_persist_failure_logged embedOne persistFailM persistFailB emptyState
      mExValid bExA "db down" [] []).1
    7 (mkMoviePayload mExValid (.arr [.num 1])) rfl rfl

/-- C8 counterexample: the domains are not independent.  With every secret
set except the movie-only `TMDB_API_KEY`, the entry point aborts the entire
run — the book domain does not proceed — whereas the identical configuration
with `TMDB_API_KEY` set syncs the book.  So a missing movie-only credential
does prevent the book domain's sync. -/
theorem c8_counterexample :
    mainEntry cfgNoTmdb orcOk persistOkM persistOkB [] [bExA]
        = .aborted ["TMDB_API_KEY"]
    ∧ (match mainEntry cfgAll orcOk persistOkM persistOkB [] [bExA] with
        | .ran s => s.syncedBooks
        | .aborted _ => 0) = 1 :=
  ⟨rfl, rfl⟩

/-- C8 (corrected): the entry point requires all four secrets at once: if any
is unset or empty — including a credential needed by only one domain — the
whole run (both domains) is aborted before any work, with a diagnostic naming
exactly the missing variables; if all four are present `run_sync` is invoked;
and inside `run_sync` a missing store credential (Supabase client not
initialised) aborts both domains with its own diagnostic. -/
theorem c8_missing_credentials_abort (c : Config)
    (oracle : String → Nat → HFResponse) (pM : Nat → Option String)
    (pB : String → Option String) (ms : List MovieRaw) (bs : List BookRaw) :
    ((missingSecrets c).isEmpty = false →
        mainEntry c oracle pM pB ms bs = .aborted (missingSecrets c))
    ∧ ((missingSecrets c).isEmpty = true →
        mainEntry c oracle pM pB ms bs
          = .ran (runSync (embedOf c oracle) pM pB ms bs (supabaseInit c) emptyState))
    ∧ (supabaseInit c = false →
        runSync (embedOf c oracle) pM pB ms bs (supabaseInit c) emptyState
          = { emptyState with log := [.supabaseNotInit] }) := by
  refine ⟨?_, ?_, ?_⟩
  · intro h; simp [mainEntry, h]
  · intro h; simp [mainEntry, h]
  · intro h; rw [h]; rfl

theorem c8_missing_credentials_abort_witness :
    mainEntry cfgNoTmdb orcOk persistOkM persistOkB [] []
      = .aborted ["TMDB_API_KEY"] :=
  (c8_missing_credentials_abort cfgNoTmdb orcOk persistOkM persistOkB [] []).1 rfl

theorem applyPairs_apply {K V : Type} [DecidableEq K] (ps : List (K × V)) :
    ∀ (s : K → Option V) (j : K), applyPairs s ps j = resolveWith (s j) ps j := by
  induction ps with
  | nil => intro s j; rfl
  | cons q ps ih =>
    intro s j
    rw [applyPairs, List.foldl_cons, ← applyPairs, ih]
    rfl

theorem resolveWith_none_or {K V : Type} [DecidableEq K] (ps : List (K × V)) :
    ∀ (a : Option V) (j : K),
      resolveWith a ps j = (resolveWith (none : Option V) ps j).or a := by
  induction ps with
  | nil => intro a j; rfl
  | cons q ps ih =>
    intro a j
    rw [resolveWith, List.foldl_cons, ← resolveWith, ih]
    conv_rhs => rw [resolveWith, List.foldl_cons, ← resolveWith, ih]
    cases hR : resolveWith (none : Option V) ps j <;>
      by_cases hj : j = q.1 <;> simp [hj, Option.or]

theorem resolveWith_absorb {K V : Type} [DecidableEq K] (a : Option V)
    (ps : List (K × V)) (j : K) :
    resolveWith (resolveWith a ps j) ps j = resolveWith a ps j := by
  rw [resolveWith_none_or ps (resolveWith a ps j) j, resolveWith_none_or ps a j]
  cases hR : resolveWith (none : Option V) ps j <;> simp [Option.or]

/-- Replaying the same sequence of keyed upserts over its own result is a
no-op: last-write-wins per key. -/
theorem applyPairs_idem {K V : Type} [DecidableEq K] (s : K → Option V)
    (ps : List (K × V)) :
    applyPairs (applyPairs s ps) ps = applyPairs s ps := by
  funext j
  rw [applyPairs_apply ps (applyPairs s ps) j, applyPairs_apply ps s j,
    resolveWith_absorb]

theorem processMovie_persist_ok (embed : String → Option JVal)
    (pM : Nat → Option String) (st : SyncState) (m : MovieRaw)
    (hp : ∀ k, pM k = none) :
    ((processMovie embed pM st m).movies
        = match moviePair embed m with
          | some q => updateFn st.movies q.1 q.2
          | none => st.movies)
    ∧ ((processMovie embed pM st m).syncedMovies
        = st.syncedMovies + match moviePair embed m with
          | some _ => 1
          | none => 0)
    ∧ (processMovie embed pM st m).books = st.books
    ∧ (processMovie embed pM st m).syncedBooks = st.syncedBooks
    ∧ (processMovie embed pM st m).log = st.log := by
  cases ha : movieAttempt embed m with
  | none => simp [processMovie, moviePair, ha]
  | some o =>
    cases o with
    | none => simp [processMovie, moviePair, ha]
    | some kv =>
      obtain ⟨k0, v0⟩ := kv
      simp [processMovie, moviePair, ha, hp k0]

theorem processBook_persist_ok (embed : String → Option JVal)
    (pB : String → Option String) (st : SyncState) (b : BookRaw)
    (hp : ∀ k, pB k = none) :
    ((processBook embed pB st b).books
        = match bookPair embed b with
          | some q => updateFn st.books q.1 q.2
          | none => st.books)
    ∧ ((processBook embed pB st b).syncedBooks
        = st.syncedBooks + match bookPair embed b with
          | some _ => 1
          | none => 0)
    ∧ (processBook embed pB st b).movies = st.movies
    ∧ (processBook embed pB st b).syncedMovies = st.syncedMovies
    ∧ (processBook embed pB st b).log = st.log := by
  cases ha : bookAttempt embed b with
  | none => simp [processBook, bookPair, ha]
  | some o =>
    cases o with
    | none => simp [processBook, bookPair, ha]
    | some kv =>
      obtain ⟨k0, v0⟩ := kv
      simp [processBook, bookPair, ha, hp k0]

theorem runMovies_persist_ok (embed : String → Option JVal)
    (pM : Nat → Option String) (ms : List MovieRaw) (hp : ∀ k, pM k = none) :
    ∀ st : SyncState,
      ((runMovies embed pM st ms).movies
          = applyPairs st.movies (ms.filterMap (moviePair embed)))
      ∧ ((runMovies embed pM st ms).syncedMovies
          = st.syncedMovies + (ms.filterMap (moviePair embed)).length)
      ∧ (runMovies embed pM st ms).books = st.books
      ∧ (runMovies embed pM st ms).syncedBooks = st.syncedBooks
      ∧ (runMovies embed pM st ms).log = st.log := by
  induction ms with
  | nil =>
    intro st
    exact ⟨rfl, by simp [runMovies], rfl, rfl, rfl⟩
  | cons m ms ih =>
    intro st
    obtain ⟨h1, h2, h3, h4, h5⟩ := processMovie_persist_ok embed pM st m hp
    obtain ⟨g1, g2, g3, g4, g5⟩ := ih (processMovie embed pM st m)
    rw [runMovies, List.foldl_cons, ← runMovies]
    refine ⟨?_, ?_, ?_, ?_, ?_⟩
    · rw [g1, h1, List.filterMap_cons]
      cases hmp : moviePair embed m <;> simp [hmp, applyPairs, List.foldl_cons]
    · rw [g2, h2, List.filterMap_cons]
      cases hmp : moviePair embed m with
      | none => simp [hmp]
      | some q =>
        simp only [hmp, List.length_cons]
        omega
    · rw [g3, h3]
    · rw [g4, h4]
    · rw [g5, h5]

theorem runBooks_persist_ok (embed : String → Option JVal)
    (pB : String → Option String) (bs : List BookRaw) (hp : ∀ k, pB k = none) :
    ∀ st : SyncState,
      ((runBooks embed pB st bs).books
          = applyPairs st.books (bs.filterMap (bookPair embed)))
      ∧ ((runBooks embed pB st bs).syncedBooks
          = st.syncedBooks + (bs.filterMap (bookPair embed)).length)
      ∧ (runBooks embed pB st bs).movies = st.movies
      ∧ (runBooks embed pB st bs).syncedMovies = st.syncedMovies
      ∧ (runBooks embed pB st bs).log = st.log := by
  induction bs with
  | nil =>
    intro st
    exact ⟨rfl, by simp [runBooks], rfl, rfl, rfl⟩
  | cons b bs ih =>
    intro st
    obtain ⟨h1, h2, h3, h4, h5⟩ := processBook_persist_ok embed pB st b hp
    obtain ⟨g1, g2, g3, g4, g5⟩ := ih (processBook embed pB st b)
    rw [runBooks, List.foldl_cons, ← runBooks]
    refine ⟨?_, ?_, ?_, ?_, ?_⟩
    · rw [g1, h1, List.filterMap_cons]
      cases hbp : bookPair embed b <;> simp [hbp, applyPairs, List.foldl_cons]
    · rw [g2, h2, List.filterMap_cons]
      cases hbp : bookPair embed b with
      | none => simp [hbp]
      | some q =>
        simp only [hbp, List.length_cons]
        omega
    · rw [g3, h3]
    · rw [g4, h4]
    · rw [g5, h5]

theorem runSync_persist_ok (embed : String → Option JVal)
    (pM : Nat → Option String) (pB : String → Option String)
    (ms : List MovieRaw) (bs : List BookRaw)
    (hM : ∀ k, pM k = none) (hB : ∀ k, pB k = none) (st : SyncState) :
    ((runSync embed pM pB ms bs true st).movies
        = applyPairs st.movies (ms.filterMap (moviePair embed)))
    ∧ ((runSync embed pM pB ms bs true st).books
        = applyPairs st.books (bs.filterMap (bookPair embed)))
    ∧ ((runSync embed pM pB ms bs true st).syncedMovies
        = st.syncedMovies + (ms.filterMap (moviePair embed)).length)
    ∧ ((runSync embed pM pB ms bs true st).syncedBooks
        = st.syncedBooks + (bs.filterMap (bookPair embed)).length)
    ∧ (runSync embed pM pB ms bs true st).log = st.log := by
  obtain ⟨m1, m2, m3, m4, m5⟩ := runMovies_persist_ok embed pM ms hM st
  obtain ⟨b1, b2, b3, b4, b5⟩ :=
    runBooks_persist_ok embed pB bs hB (runMovies embed pM st ms)
  have hrs : runSync embed pM pB ms bs true st
      = runBooks embed pB (runMovies embed pM st ms) bs := by
    simp [runSync]
  refine ⟨?_, ?_, ?_, ?_, ?_⟩
  · rw [hrs, b3, m1]
  · rw [hrs, b1, m3]
  · rw [hrs, b4, m2]
  · rw [hrs, b2, m4]
  · rw [hrs, b5, m5]

/-- C2: running the full sync twice against an unchanged upstream (same
candidate lists, same embedding function), with every upsert succeeding,
yields identical observable output: starting the second run from the tables
the first run produced (the success counters are local variables reset to 0
by each invocation), the second run's tables, persisted-record counters and
log all equal the first run's — upserts keyed by tmdb_id / google_id with
conflict-replace semantics make re-running a no-op, with no duplicate rows
(the table model holds at most one row per key by construction). -/
theorem c2_sync_idempotent (embed : String → Option JVal)
    (pM : Nat → Option String) (pB : String → Option String)
    (ms : List MovieRaw) (bs : List BookRaw)
    (hM : ∀ k, pM k = none) (hB : ∀ k, pB k = none) :
    obs (runSync embed pM pB ms bs true
          { emptyState with
              movies := (runSync embed pM pB ms bs true emptyState).movies
              books := (runSync embed pM pB ms bs true emptyState).books })
      = obs (runSync embed pM pB ms bs true emptyState) := by
  obtain ⟨a1, a2, a3, a4, a5⟩ := runSync_persist_ok embed pM pB ms bs hM hB emptyState
  obtain ⟨b1, b2, b3, b4, b5⟩ := runSync_persist_ok embed pM pB ms bs hM hB
    { emptyState with
        movies := (runSync embed pM pB ms bs true emptyState).movies
        books := (runSync embed pM pB ms bs true emptyState).books }
  simp only [obs, Prod.mk.injEq]
  refine ⟨?_, ?_, ?_, ?_, ?_⟩
  · rw [b1]
    show applyPairs (runSync embed pM pB ms bs true emptyState).movies
        (ms.filterMap (moviePair embed))
      = (runSync embed pM pB ms bs true emptyState).movies
    rw [a1, applyPairs_idem]
  · rw [b2]
    show applyPairs (runSync embed pM pB ms bs true emptyState).books
        (bs.filterMap (bookPair embed))
      = (runSync embed pM pB ms bs true emptyState).books
    rw [a2, applyPairs_idem]
  · rw [b3, a3]
  · rw [b4, a4]
  · rw [b5, a5]

theorem c2_sync_idempotent_witness :
    obs (runSync embedOne persistOkM persistOkB [mExValid] [bExA] true
          { emptyState with
              movies := (runSync embedOne persistOkM persistOkB [mExValid] [bExA]
                  true emptyState).movies
              books := (runSync embedOne persistOkM persistOkB [mExValid] [bExA]
                  true emptyState).books })
      = obs (runSync embedOne persistOkM persistOkB [mExValid] [bExA] true emptyState) :=
  c2_sync_idempotent embedOne persistOkM persistOkB [mExValid] [bExA]
    (fun _ => rfl) (fun _ => rfl)

end CineLibre
